import Mathlib

/-!
Shallow embedding of the splurge-exceptions framework
(src/splurge_exceptions), covering the base error type
(core/base.py), the stdlib wrapper (wrappers/stdlib.py), the
decorator (decorators/error_handler.py) and the scoped handler
(managers/exception.py), together with theorems settling the
frozen claims about the natural-language specification.

Python values stored in context and details maps are drawn from a
small universe (strings and None); Python dicts are modelled as
insertion-ordered association lists with last-write-wins update,
exceptions in flight as an inductive of foreign exceptions and
Splurge errors (carrying an optional cause), and fallible Python
functions as Except-valued Lean functions.
-/

/-- Universe of Python values used in context and details maps. -/
inductive PyVal where
  | str (s : String)
  | none
deriving DecidableEq

/-- Python repr of a value (used by get_full_message's f-string). -/
def PyVal.pyrepr : PyVal → String
  | .str s => "\x27" ++ s ++ "\x27"
  | .none => "None"

/-- A Python dict with string keys, as an insertion-ordered association list. -/
abbrev Dict := List (String × PyVal)

/-- Setting d[k] = v on a Python dict: overwrite in place if the key exists,
otherwise append at the end. -/
def dictSet (m : Dict) (k : String) (v : PyVal) : Dict :=
  if m.any (fun p => p.1 == k) then
    m.map (fun p => if p.1 == k then (k, v) else p)
  else
    m ++ [(k, v)]

/-- dict.update: fold dictSet over the entries of the second dict, so a
later write for the same key wins. -/
def dictUpdate (m entries : Dict) : Dict :=
  entries.foldl (fun acc p => dictSet acc p.1 p.2) m

/-- dict.get: first binding of the key, if any. -/
def dictGet (m : Dict) (k : String) : Option PyVal :=
  (m.find? (fun p => p.1 == k)).map (fun p => p.2)

/-- Python truthiness of an optional dict argument: None and the empty
dict are falsy. -/
def dictTruthy : Option Dict → Bool
  | some m => !m.isEmpty
  | none => false

/-- Python exception kinds raised by the embedded code paths
(core/base.py raises ValueError on validation failures and TypeError
when _domain is missing). -/
inductive PyErr where
  | valueError
  | typeError
deriving DecidableEq

/-- Lowercase ASCII letter, as in the character class [a-z]. -/
def isLowerAZ (c : Char) : Bool :=
  97 ≤ c.toNat && c.toNat ≤ 122

/-- ASCII digit, as in the character class [0-9]. -/
def isDigit09 (c : Char) : Bool :=
  48 ≤ c.toNat && c.toNat ≤ 57

/-- Character admitted in the interior of a component: [a-z0-9-]. -/
def isCodeChar (c : Char) : Bool :=
  isLowerAZ c || isDigit09 c || c == '-'

/-- The regex ^[a-z][a-z0-9-]*[a-z0-9]$ anchored at the true end of the
input, on a character list: length at least 2, first character a
lowercase letter, last character a lowercase letter or digit, every
character in [a-z0-9-]. -/
def validComponentAnchored (l : List Char) : Bool :=
  decide (2 ≤ l.length) &&
  (match l.head? with
   | some c => isLowerAZ c
   | Option.none => false) &&
  l.all isCodeChar &&
  (match l.getLast? with
   | some c => isLowerAZ c || isDigit09 c
   | Option.none => false)

/-- CPython's dollar anchor also matches immediately before a newline
that is the last character of the input, so re.match tolerates exactly
one trailing newline: drop it before the anchored match. -/
def dropTrailingNewline (l : List Char) : List Char :=
  if l.getLast? = some (Char.ofNat 10) then l.dropLast else l

/-- VALID_COMPONENT_PATTERN.match of core/base.py: the regex
^[a-z][a-z0-9-]*[a-z0-9]$ under re.match semantics, where the dollar
anchor also matches just before a single trailing newline. -/
def validComponentL (l : List Char) : Bool :=
  validComponentAnchored (dropTrailingNewline l)

/-- VALID_COMPONENT_PATTERN match on a string. -/
def validComponent (s : String) : Bool :=
  validComponentL s.toList

/-- Splitting a character list on the dot character, mirroring
str.split(".") in Python (so "a..b" yields an empty middle piece and
the empty string yields one empty piece). -/
def splitDots : List Char → List (List Char)
  | [] => [[]]
  | c :: rest =>
    let r := splitDots rest
    if c == '.' then [] :: r
    else
      match r with
      | [] => [[c]]
      | h :: t => (c :: h) :: t

/-- SplurgeError._validate_error_code: empty error codes and error codes
not matching VALID_COMPONENT_PATTERN (in particular any code containing
a dot) raise ValueError. -/
def validate_error_code (error_code : String) : Except PyErr Unit :=
  if error_code = "" then Except.error PyErr.valueError
  else if validComponent error_code then Except.ok ()
  else Except.error PyErr.valueError

/-- SplurgeError._validate_domain: empty domains raise ValueError, the
domain is split on dots and every component (empty components included)
must match VALID_COMPONENT_PATTERN. -/
def validate_domain (domain : String) : Except PyErr Unit :=
  if domain = "" then Except.error PyErr.valueError
  else if (splitDots domain.toList).all validComponentL then Except.ok ()
  else Except.error PyErr.valueError

/-- The VALID_SEVERITIES set of SplurgeError. -/
def validSeverities : List String := ["info", "warning", "error", "critical"]

/-- A SplurgeError instance: the class-level _domain plus the instance
fields set by __init__ and mutated by attach_context / add_suggestion. -/
structure SplurgeError where
  domain : String
  errorCode : String
  message : Option String
  details : Dict
  severity : String
  recoverable : Bool
  context : Dict
  suggestions : List String
deriving DecidableEq

/-- SplurgeError.full_code: the domain concatenated with the error code
by a single dot, with no other processing. -/
def SplurgeError.full_code (e : SplurgeError) : String :=
  e.domain ++ "." ++ e.errorCode

/-- SplurgeError.__init__: validates the error code, then the domain,
then the severity (each failure a ValueError), then stores the fields,
with details defaulting to the empty dict and fresh empty context and
suggestions. -/
def splurgeInit (domain : String) (error_code : String)
    (message : Option String) (details : Option Dict)
    (severity : String) (recoverable : Bool) :
    Except PyErr SplurgeError := do
  _ ← validate_error_code error_code
  _ ← validate_domain domain
  if severity ∈ validSeverities then
    Except.ok {
      domain := domain
      errorCode := error_code
      message := message
      details := details.getD []
      severity := severity
      recoverable := recoverable
      context := []
      suggestions := [] }
  else
    Except.error PyErr.valueError

/-- SplurgeError.get_context: look the key up in the context map,
falling back to the default. -/
def SplurgeError.get_context (e : SplurgeError) (key : String)
    (default : PyVal) : PyVal :=
  (dictGet e.context key).getD default

/-- SplurgeError.attach_context: if context_dict is truthy (given and
non-empty) merge it into the context; otherwise if key is given set that
single binding; otherwise raise ValueError. Returns the updated error
(Python returns self). -/
def SplurgeError.attach_context (e : SplurgeError) (key : Option String)
    (value : PyVal) (context_dict : Option Dict) :
    Except PyErr SplurgeError :=
  if dictTruthy context_dict then
    Except.ok { e with context := dictUpdate e.context (context_dict.getD []) }
  else
    match key with
    | some k => Except.ok { e with context := dictSet e.context k value }
    | Option.none => Except.error PyErr.valueError

/-- SplurgeError.add_suggestion: append to the suggestion list. -/
def SplurgeError.add_suggestion (e : SplurgeError) (s : String) :
    SplurgeError :=
  { e with suggestions := e.suggestions ++ [s] }

/-- Joining string parts with a separator, as " ".join(parts). -/
def joinSep (sep : String) : List String → String
  | [] => ""
  | [s] => s
  | s :: rest => s ++ sep ++ joinSep sep rest

/-- Rendering of a details dict as in get_full_message:
", ".join of k=repr(v) pieces. -/
def detailsStr (d : Dict) : String :=
  joinSep ", " (d.map (fun p => p.1 ++ "=" ++ p.2.pyrepr))

/-- SplurgeError.get_full_message: "[full_code] message (details)" with
absent pieces dropped (full_code is always non-empty here). -/
def SplurgeError.get_full_message (e : SplurgeError) : String :=
  let parts : List String :=
    (if e.full_code = "" then [] else ["[" ++ e.full_code ++ "]"]) ++
    (match e.message with
     | some m => [m]
     | Option.none => []) ++
    (if e.details.isEmpty then [] else ["(" ++ detailsStr e.details ++ ")"])
  if parts.isEmpty then "An error occurred" else joinSep " " parts

/-- Identity of a concrete SplurgeError subclass: the class name and its
class-level _domain attribute. -/
structure SplurgeClass where
  name : String
  domain : String
deriving DecidableEq

/-- A Python exception in flight: either a foreign (non-Splurge)
exception, identified by its type name, whether it is an instance of
Exception (KeyboardInterrupt and SystemExit are not), and its str();
or a Splurge error instance, with its class name, its fields and the
exception stored in its dunder-cause slot by wrap_exception. -/
inductive PyExc where
  | foreign (ty : String) (isExc : Bool) (msg : String)
  | splurge (ty : String) (err : SplurgeError) (cause : Option PyExc)

/-- type(e).__name__, used for exact-type lookup in exception mappings. -/
def PyExc.typeName : PyExc → String
  | .foreign ty _ _ => ty
  | .splurge ty _ _ => ty

/-- isinstance(e, Exception): Splurge errors derive Exception. -/
def PyExc.isException : PyExc → Bool
  | .foreign _ b _ => b
  | .splurge _ _ _ => true

/-- str(e): for a foreign exception its message, for a Splurge error
the dunder-str defined as get_full_message. -/
def PyExc.toStr : PyExc → String
  | .foreign _ _ m => m
  | .splurge _ e _ => e.get_full_message

/-- A ValueError escaping from a constructor called inside a handler,
as the exception object it would propagate as. -/
def pyErrToExc : PyErr → PyExc
  | PyErr.valueError => PyExc.foreign "ValueError" true ""
  | PyErr.typeError => PyExc.foreign "TypeError" true ""

/-- Python truthiness of an optional list argument. -/
def listTruthy {α : Type} : Option (List α) → Bool
  | some l => !l.isEmpty
  | Option.none => false

/-- wrap_exception of wrappers/stdlib.py: message defaults to str of the
original exception, the target class is constructed with the given
error code, message and details, the original exception is stored as
the cause, a truthy context dict is merged via attach_context, and each
suggestion is appended in order. Construction failures (ValueError from
the target constructor) propagate. -/
def wrap_exception (exception : PyExc) (target : SplurgeClass)
    (error_code : String) (message : Option String)
    (context : Option Dict) (suggestions : Option (List String))
    (details : Option Dict) : Except PyErr PyExc := do
  let msg := message.getD exception.toStr
  let w ← splurgeInit target.domain error_code (some msg) details "error" false
  let w ←
    if dictTruthy context then
      w.attach_context Option.none PyVal.none context
    else
      Except.ok w
  let w :=
    if listTruthy suggestions then
      (suggestions.getD []).foldl SplurgeError.add_suggestion w
    else
      w
  Except.ok (PyExc.splurge target.name w (some exception))

/-- An exception mapping: exact source type name to target Splurge
class and error code. -/
abbrev ExcMap := List (String × SplurgeClass × String)

/-- Exact-type lookup, with Python truthiness of the optional mapping
(None and the empty dict both mean no mapping applies). -/
def lookupExc (m : Option ExcMap) (ty : String) :
    Option (SplurgeClass × String) :=
  match m with
  | some l => l.lookup ty
  | Option.none => Option.none

/-- Outcome of running a block or call: a normal value or a raised
exception. -/
inductive Outcome (α : Type) where
  | ok (a : α)
  | exc (e : PyExc)

/-- Type name of the exception an outcome propagates, if any. -/
def Outcome.excName {α : Type} : Outcome α → Option String
  | .exc e => some e.typeName
  | .ok _ => Option.none

/-- get_context of the Splurge error an outcome propagates, if any. -/
def Outcome.excContextAt {α : Type} (o : Outcome α) (k : String) :
    Option PyVal :=
  match o with
  | .exc (PyExc.splurge _ err _) => some (err.get_context k PyVal.none)
  | _ => Option.none

/-- The context attachment step of error_context: when the handler's
context dict is truthy it is merged into the wrapped Splurge error via
attach_context (which cannot fail on a non-empty dict; the fallback
keeps the error unchanged). -/
def applyHandlerContext (w : PyExc) (context : Option Dict) : PyExc :=
  if dictTruthy context then
    match w with
    | PyExc.splurge n err c =>
      PyExc.splurge n
        ((err.attach_context Option.none PyVal.none context).toOption.getD err) c
    | e => e
  else
    w

/-- The except-branch of error_context of managers/exception.py, for a
caught exception e: re-raise non-Exception BaseExceptions immediately;
for an exactly-mapped type, wrap it, attach the handler context, run
on_error inside a try whose except clause catches only Exception (so a
non-Exception BaseException raised by the callback escapes and
propagates regardless of suppress, while an Exception raised by the
callback leaves the wrapped error to propagate unless suppress), then
raise the wrapped error unless suppress; for an unmapped type, run
on_error under the same except-Exception filter (an Exception raised by
the callback is itself re-raised by the bare raise unless suppress) and
re-raise the original unless suppress. The on_error callback is
modelled as a function from the exception it receives to none (returned
normally) or some c (raised c). -/
def errorContextCaught (exceptions : Option ExcMap) (context : Option Dict)
    (on_error : Option (PyExc → Option PyExc)) (suppress : Bool)
    (e : PyExc) : Outcome Unit :=
  if !e.isException then Outcome.exc e
  else
    match lookupExc exceptions e.typeName with
    | some (target, error_code) =>
      match wrap_exception e target error_code Option.none Option.none
          Option.none Option.none with
      | Except.error pe => Outcome.exc (pyErrToExc pe)
      | Except.ok wrapped0 =>
        let wrapped := applyHandlerContext wrapped0 context
        match on_error with
        | some f =>
          match f wrapped with
          | some ce =>
            if !ce.isException then Outcome.exc ce
            else if !suppress then Outcome.exc wrapped else Outcome.ok ()
          | Option.none =>
            if !suppress then Outcome.exc wrapped else Outcome.ok ()
        | Option.none =>
          if !suppress then Outcome.exc wrapped else Outcome.ok ()
    | Option.none =>
      match on_error with
      | some f =>
        match f e with
        | some ce =>
          if !ce.isException then Outcome.exc ce
          else if !suppress then Outcome.exc ce else Outcome.ok ()
        | Option.none =>
          if !suppress then Outcome.exc e else Outcome.ok ()
      | Option.none =>
        if !suppress then Outcome.exc e else Outcome.ok ()

/-- error_context of managers/exception.py, as a function from the
body's outcome to the outcome of the whole with-block. The on_success
callback runs inside the try, so an exception it raises goes through
the same except branch. -/
def error_context (exceptions : Option ExcMap) (context : Option Dict)
    (on_success : Option (Option PyExc))
    (on_error : Option (PyExc → Option PyExc)) (suppress : Bool)
    (body : Outcome Unit) : Outcome Unit :=
  match body with
  | Outcome.ok _ =>
    match on_success with
    | some (some se) =>
      errorContextCaught exceptions context on_error suppress se
    | some Option.none => Outcome.ok ()
    | Option.none => Outcome.ok ()
  | Outcome.exc e =>
    errorContextCaught exceptions context on_error suppress e

/-- handle_exceptions of decorators/error_handler.py, as a function from
the decorated call's outcome: a normal result is returned unchanged; an
exception whose exact type is not a key of the mapping is re-raised
as-is; a mapped exception is wrapped and, depending on reraise, the
wrapped error is raised or None is returned (logging has no observable
effect here). -/
def handle_exceptions {α : Type} (exceptions : ExcMap) (reraise : Bool)
    (body : Outcome α) : Outcome (Option α) :=
  match body with
  | Outcome.ok a => Outcome.ok (some a)
  | Outcome.exc e =>
    match lookupExc (some exceptions) e.typeName with
    | Option.none => Outcome.exc e
    | some (target, error_code) =>
      match wrap_exception e target error_code Option.none Option.none
          Option.none Option.none with
      | Except.error pe => Outcome.exc (pyErrToExc pe)
      | Except.ok wrapped =>
        if reraise then Outcome.exc wrapped else Outcome.ok Option.none

/-- The state dict built by SplurgeError's dunder-reduce: the keyword
fields plus the private context and suggestions. -/
structure PickleState where
  message : Option String
  details : Dict
  severity : String
  recoverable : Bool
  context : Dict
  suggestions : List String
deriving DecidableEq

/-- SplurgeError's dunder-reduce: the class (identified here by its
_domain), the positional args (only the error code) and the state. -/
def splurgeReduce (e : SplurgeError) : String × String × PickleState :=
  (e.domain, e.errorCode,
   { message := e.message
     details := e.details
     severity := e.severity
     recoverable := e.recoverable
     context := e.context
     suggestions := e.suggestions })

/-- SplurgeError's dunder-setstate: restore the keyword fields and the
context and suggestions from the state (the state produced by
dunder-reduce always carries every key with a well-typed value). -/
def splurgeSetstate (e : SplurgeError) (st : PickleState) : SplurgeError :=
  { e with
    message := st.message
    details := st.details
    severity := st.severity
    recoverable := st.recoverable
    context := st.context
    suggestions := st.suggestions }

/-- Unpickling: call the class constructor with only the error code (so
message, details, severity and recoverable take their defaults), then
apply dunder-setstate with the pickled state. -/
def splurgeUnpickle (domain : String) (error_code : String)
    (st : PickleState) : Except PyErr SplurgeError := do
  let e ← splurgeInit domain error_code Option.none Option.none "error" false
  Except.ok (splurgeSetstate e st)

/-- Follows the spec's words (not the code), for comparison: whether the
domain already ends with the exact error code as a trailing dot-bounded
component. -/
def spec_ends_with_component (domain error_code : String) : Bool :=
  decide ((splitDots domain.toList).getLast? = some error_code.toList)

/-- Follows the spec's words (not the code), for comparison: the claimed
full_code, deduplicating when the domain already ends with the error
code as a trailing dot-bounded component. -/
def spec_full_code (domain error_code : String) : String :=
  if spec_ends_with_component domain error_code then domain
  else domain ++ "." ++ error_code

/-- Follows the claim's words (not the code), for comparison: the strict
conformance predicate with the pattern applied per dot-separated
component of both error_code and domain, and error_code non-empty. -/
def spec_strict_conforming (domain error_code : String) : Bool :=
  decide (error_code ≠ "") &&
  (splitDots error_code.toList).all validComponentL &&
  (splitDots domain.toList).all validComponentL

deriving instance DecidableEq for Except

lemma except_ok_bind {ε α β : Type} (a : α) (f : α → Except ε β) :
    (Except.ok a : Except ε α) >>= f = f a := rfl

lemma except_error_bind {ε α β : Type} (e : ε) (f : α → Except ε β) :
    (Except.error e : Except ε α) >>= f = Except.error e := rfl

lemma validate_error_code_cases (ec : String) :
    validate_error_code ec = Except.ok ()
    ∨ validate_error_code ec = Except.error PyErr.valueError := by
  unfold validate_error_code
  split_ifs <;> simp

lemma validate_domain_cases (d : String) :
    validate_domain d = Except.ok ()
    ∨ validate_domain d = Except.error PyErr.valueError := by
  unfold validate_domain
  split_ifs <;> simp

lemma validate_error_code_ok_iff (ec : String) :
    validate_error_code ec = Except.ok ()
      ↔ (ec ≠ "" ∧ validComponent ec = true) := by
  unfold validate_error_code
  split_ifs with h1 h2 <;> simp_all

lemma validate_domain_ok_iff (d : String) :
    validate_domain d = Except.ok ()
      ↔ (splitDots d.toList).all validComponentL = true := by
  unfold validate_domain
  split_ifs with h1 h2
  · subst h1
    constructor
    · intro h
      cases h
    · intro h
      exact absurd h (by decide)
  · exact iff_of_true rfl h2
  · exact iff_of_false (by simp) h2

lemma splurgeInit_eq_ok (domain error_code : String)
    (message : Option String) (details : Option Dict)
    (severity : String) (recoverable : Bool)
    (h1 : validate_error_code error_code = Except.ok ())
    (h2 : validate_domain domain = Except.ok ())
    (h3 : severity ∈ validSeverities) :
    splurgeInit domain error_code message details severity recoverable
      = Except.ok ⟨domain, error_code, message, details.getD [], severity,
          recoverable, [], []⟩ := by
  unfold splurgeInit
  rw [h1, h2, except_ok_bind, except_ok_bind, if_pos h3]

lemma splurgeInit_ok_inv {domain error_code : String}
    {message : Option String} {details : Option Dict}
    {severity : String} {recoverable : Bool} {e : SplurgeError}
    (h : splurgeInit domain error_code message details severity recoverable
      = Except.ok e) :
    validate_error_code error_code = Except.ok ()
    ∧ validate_domain domain = Except.ok ()
    ∧ severity ∈ validSeverities
    ∧ e = ⟨domain, error_code, message, details.getD [], severity,
        recoverable, [], []⟩ := by
  rcases validate_error_code_cases error_code with h1 | h1 <;>
    rcases validate_domain_cases domain with h2 | h2 <;>
    unfold splurgeInit at h <;> rw [h1, h2] at h <;>
    simp only [except_ok_bind, except_error_bind] at h
  · by_cases h3 : severity ∈ validSeverities
    · rw [if_pos h3] at h
      cases h
      exact ⟨h1, h2, h3, rfl⟩
    · rw [if_neg h3] at h
      cases h
  all_goals cases h

lemma splurgeInit_err_of_invalid {domain error_code : String}
    {message : Option String} {details : Option Dict}
    {severity : String} {recoverable : Bool} {pe : PyErr}
    (h : splurgeInit domain error_code message details severity recoverable
      = Except.error pe) :
    pe = PyErr.valueError := by
  rcases validate_error_code_cases error_code with h1 | h1 <;>
    rcases validate_domain_cases domain with h2 | h2 <;>
    unfold splurgeInit at h <;> rw [h1, h2] at h <;>
    simp only [except_ok_bind, except_error_bind] at h
  · by_cases h3 : severity ∈ validSeverities
    · rw [if_pos h3] at h
      cases h
    · rw [if_neg h3] at h
      cases h
      rfl
  all_goals (cases h; rfl)

/-- C1 counterexample: constructing with domain
"app.validation.invalid-email" and error_code "invalid-email" yields
full_code "app.validation.invalid-email.invalid-email", not the
deduplicated "app.validation.invalid-email" the claim asserts (the
spec-worded function does deduplicate there). -/
theorem c1_full_code_counterexample :
    (splurgeInit "app.validation.invalid-email" "invalid-email"
        Option.none Option.none "error" false).map SplurgeError.full_code
      = Except.ok "app.validation.invalid-email.invalid-email"
    ∧ ("app.validation.invalid-email.invalid-email" : String)
        ≠ "app.validation.invalid-email"
    ∧ spec_full_code "app.validation.invalid-email" "invalid-email"
        = "app.validation.invalid-email" := by
  refine ⟨by decide, by decide, by decide⟩

/-- C1 amended: for every successfully constructed error, full_code is
always the domain concatenated with the error code by a single dot,
with no de-duplication, even when the domain already ends with that
exact error code as a trailing dot-bounded component. -/
theorem c1_full_code_is_plain_concatenation (domain error_code : String)
    (message : Option String) (details : Option Dict)
    (severity : String) (recoverable : Bool) (e : SplurgeError)
    (h : splurgeInit domain error_code message details severity recoverable
      = Except.ok e) :
    e.full_code = domain ++ "." ++ error_code := by
  obtain ⟨-, -, -, he⟩ := splurgeInit_ok_inv h
  subst he
  rfl

/-- C1 witness: the concatenation theorem applied at the claim's own
scenario input. -/
theorem c1_full_code_is_plain_concatenation_witness :
    splurgeInit "app.validation.invalid-email" "invalid-email"
        Option.none Option.none "error" false
      = Except.ok ⟨"app.validation.invalid-email", "invalid-email",
          Option.none, [], "error", false, [], []⟩
    ∧ (⟨"app.validation.invalid-email", "invalid-email", Option.none, [],
          "error", false, [], []⟩ : SplurgeError).full_code
      = "app.validation.invalid-email" ++ "." ++ "invalid-email" := by
  refine ⟨by decide, ?_⟩
  exact c1_full_code_is_plain_concatenation "app.validation.invalid-email"
    "invalid-email" Option.none Option.none "error" false
    ⟨"app.validation.invalid-email", "invalid-email", Option.none, [],
      "error", false, [], []⟩ (by decide)

/-- C3 counterexample: the error code "ab.cd" conforms per dot-separated
component (each of "ab" and "cd" matches the pattern, and the code is
non-empty), and the domain "app.service" conforms, yet construction
fails with ValueError: the code validates error_code as a single
component, rejecting any dot. -/
theorem c3_dotted_error_code_counterexample :
    spec_strict_conforming "app.service" "ab.cd" = true
    ∧ splurgeInit "app.service" "ab.cd" Option.none Option.none "error" false
      = Except.error PyErr.valueError := by
  refine ⟨by decide, by decide⟩

/-- C3 amended: with a valid severity, construction succeeds if and only
if the error code is non-empty and matches the pattern as a whole under
re.match semantics (dots are not allowed in error codes, while a single
trailing newline is tolerated by the dollar anchor) and every
dot-separated component of the domain matches the pattern the same way;
every failure surfaces at construction as a ValueError. -/
theorem c3_strict_validation_iff (domain error_code : String)
    (message : Option String) (details : Option Dict)
    (severity : String) (recoverable : Bool)
    (hs : severity ∈ validSeverities) :
    ((splurgeInit domain error_code message details severity
        recoverable).isOk = true
      ↔ (error_code ≠ "" ∧ validComponent error_code = true
          ∧ (splitDots domain.toList).all validComponentL = true))
    ∧ ((splurgeInit domain error_code message details severity
          recoverable).isOk = false →
        splurgeInit domain error_code message details severity recoverable
          = Except.error PyErr.valueError) := by
  constructor
  · constructor
    · intro hok
      cases hres : splurgeInit domain error_code message details severity
          recoverable with
      | error pe =>
        rw [hres] at hok
        simp [Except.isOk, Except.toBool] at hok
      | ok e =>
        obtain ⟨h1, h2, -, -⟩ := splurgeInit_ok_inv hres
        obtain ⟨he, hv⟩ := (validate_error_code_ok_iff error_code).mp h1
        exact ⟨he, hv, (validate_domain_ok_iff domain).mp h2⟩
    · rintro ⟨h1, h2, h3⟩
      rw [splurgeInit_eq_ok domain error_code message details severity
        recoverable ((validate_error_code_ok_iff error_code).mpr ⟨h1, h2⟩)
        ((validate_domain_ok_iff domain).mpr h3) hs]
      rfl
  · intro hnotok
    cases hres : splurgeInit domain error_code message details severity
        recoverable with
    | ok e =>
      rw [hres] at hnotok
      simp [Except.isOk, Except.toBool] at hnotok
    | error pe =>
      rw [splurgeInit_err_of_invalid hres]

/-- C3 witness: the amended iff applied at the conforming input
(domain "app.service", error code "invalid-value", severity "error"),
and at the boundary input with the error code "ab" followed by a
newline, which re.match accepts, so construction succeeds. -/
theorem c3_strict_validation_iff_witness :
    ("error" : String) ∈ validSeverities
    ∧ ((splurgeInit "app.service" "invalid-value" Option.none Option.none
          "error" false).isOk = true
        ↔ ("invalid-value" ≠ "" ∧ validComponent "invalid-value" = true
            ∧ (splitDots ("app.service" : String).toList).all
                validComponentL = true))
    ∧ (splurgeInit "app.service" "ab\n" Option.none Option.none
          "error" false).isOk = true := by
  refine ⟨by decide, ?_, ?_⟩
  · exact (c3_strict_validation_iff "app.service" "invalid-value"
      Option.none Option.none "error" false (by decide)).1
  · exact ((c3_strict_validation_iff "app.service" "ab\n"
      Option.none Option.none "error" false (by decide)).1).mpr
      ⟨by decide, by decide, by decide⟩

/-- C7: attach_context with neither a key nor a truthy context dict
raises ValueError (returning no updated instance, so the stored context
is unchanged); a provided non-empty context dict is shallow-merged into
the context (whether or not a key is also given) and the updated self
is returned for chaining. -/
theorem c7_attach_context_behavior (e : SplurgeError) (v : PyVal)
    (m : Dict) :
    (e.attach_context Option.none v Option.none
      = Except.error PyErr.valueError)
    ∧ (e.attach_context Option.none v (some [])
      = Except.error PyErr.valueError)
    ∧ (m ≠ [] →
        e.attach_context Option.none v (some m)
          = Except.ok { e with context := dictUpdate e.context m })
    ∧ (∀ k : String, m ≠ [] →
        e.attach_context (some k) v (some m)
          = Except.ok { e with context := dictUpdate e.context m }) := by
  refine ⟨rfl, rfl, ?_, ?_⟩
  · intro hm
    cases m with
    | nil => exact absurd rfl hm
    | cons p t => rfl
  · intro k hm
    cases m with
    | nil => exact absurd rfl hm
    | cons p t => rfl

/-- C7 witness: the attach_context theorem applied at a concrete error
and a concrete one-entry context dict. -/
theorem c7_attach_context_behavior_witness :
    ((⟨"app", "generic", Option.none, [], "error", false, [], []⟩ :
        SplurgeError).attach_context Option.none PyVal.none Option.none
      = Except.error PyErr.valueError)
    ∧ ([("k", PyVal.str "v")] : Dict) ≠ []
    ∧ ((⟨"app", "generic", Option.none, [], "error", false, [], []⟩ :
          SplurgeError).attach_context Option.none PyVal.none
            (some [("k", PyVal.str "v")])
        = Except.ok ⟨"app", "generic", Option.none, [], "error", false,
            [("k", PyVal.str "v")], []⟩) := by
  refine ⟨?_, by decide, ?_⟩
  · exact (c7_attach_context_behavior
      ⟨"app", "generic", Option.none, [], "error", false, [], []⟩
      PyVal.none [("k", PyVal.str "v")]).1
  · exact (c7_attach_context_behavior
      ⟨"app", "generic", Option.none, [], "error", false, [], []⟩
      PyVal.none [("k", PyVal.str "v")]).2.2.1 (by decide)

/-- C10: the constructor takes severity (defaulting to "error") and
recoverable; any severity outside the four valid levels makes
construction fail with ValueError; and error_code defaults to
"generic", so construction with all defaults succeeds whenever the
class's domain is valid, yielding severity "error" and recoverable
false. -/
theorem c10_severity_and_defaults (domain error_code : String)
    (message : Option String) (details : Option Dict)
    (severity : String) (recoverable : Bool) :
    (severity ∉ validSeverities →
      splurgeInit domain error_code message details severity recoverable
        = Except.error PyErr.valueError)
    ∧ (validate_domain domain = Except.ok () →
        splurgeInit domain "generic" Option.none Option.none "error" false
          = Except.ok ⟨domain, "generic", Option.none, [], "error", false,
              [], []⟩) := by
  constructor
  · intro hs
    rcases validate_error_code_cases error_code with h1 | h1 <;>
      rcases validate_domain_cases domain with h2 | h2 <;>
      unfold splurgeInit <;> rw [h1, h2] <;>
      simp only [except_ok_bind, except_error_bind]
    · rw [if_neg hs]
  · intro hd
    exact splurgeInit_eq_ok domain "generic" Option.none Option.none
      "error" false (by decide) hd (by decide)

/-- C10 witness: the theorem applied at an invalid severity "fatal" and
at the valid domain "app" for the all-defaults construction. -/
theorem c10_severity_and_defaults_witness :
    ("fatal" : String) ∉ validSeverities
    ∧ splurgeInit "app" "generic" Option.none Option.none "fatal" false
      = Except.error PyErr.valueError
    ∧ validate_domain "app" = Except.ok ()
    ∧ splurgeInit "app" "generic" Option.none Option.none "error" false
      = Except.ok ⟨"app", "generic", Option.none, [], "error", false,
          [], []⟩ := by
  refine ⟨by decide, ?_, by decide, ?_⟩
  · exact (c10_severity_and_defaults "app" "generic" Option.none
      Option.none "fatal" false).1 (by decide)
  · exact (c10_severity_and_defaults "app" "generic" Option.none
      Option.none "error" false).2 (by decide)

/-- C4: unpickling the pickle of any constructed error with any attached
context and suggestions reconstructs the instance exactly: error code,
message, details, context map and suggestions list all round-trip
unchanged (severity and recoverable as well). -/
theorem c4_pickle_roundtrip (domain error_code : String)
    (message : Option String) (details : Option Dict)
    (severity : String) (recoverable : Bool) (e0 : SplurgeError)
    (ctx : Dict) (suggs : List String)
    (h : splurgeInit domain error_code message details severity recoverable
      = Except.ok e0) :
    splurgeUnpickle
        (splurgeReduce { e0 with context := ctx, suggestions := suggs }).1
        (splurgeReduce { e0 with context := ctx, suggestions := suggs }).2.1
        (splurgeReduce { e0 with context := ctx, suggestions := suggs }).2.2
      = Except.ok { e0 with context := ctx, suggestions := suggs } := by
  obtain ⟨h1, h2, -, he⟩ := splurgeInit_ok_inv h
  subst he
  unfold splurgeUnpickle splurgeReduce
  rw [splurgeInit_eq_ok domain error_code Option.none Option.none "error"
    false h1 h2 (by decide)]
  rfl

/-- C4 witness: round-trip at a concrete error with context and
suggestions attached. -/
theorem c4_pickle_roundtrip_witness :
    splurgeInit "database.sql" "invalid-column" (some "Column missing")
        (some [("table", PyVal.str "users")]) "warning" true
      = Except.ok ⟨"database.sql", "invalid-column", some "Column missing",
          [("table", PyVal.str "users")], "warning", true, [], []⟩
    ∧ splurgeUnpickle
        (splurgeReduce ⟨"database.sql", "invalid-column",
          some "Column missing", [("table", PyVal.str "users")], "warning",
          true, [("op", PyVal.str "read")], ["Check the schema"]⟩).1
        (splurgeReduce ⟨"database.sql", "invalid-column",
          some "Column missing", [("table", PyVal.str "users")], "warning",
          true, [("op", PyVal.str "read")], ["Check the schema"]⟩).2.1
        (splurgeReduce ⟨"database.sql", "invalid-column",
          some "Column missing", [("table", PyVal.str "users")], "warning",
          true, [("op", PyVal.str "read")], ["Check the schema"]⟩).2.2
      = Except.ok ⟨"database.sql", "invalid-column", some "Column missing",
          [("table", PyVal.str "users")], "warning", true,
          [("op", PyVal.str "read")], ["Check the schema"]⟩ := by
  refine ⟨by decide, ?_⟩
  exact c4_pickle_roundtrip "database.sql" "invalid-column"
    (some "Column missing") (some [("table", PyVal.str "users")]) "warning"
    true ⟨"database.sql", "invalid-column", some "Column missing",
      [("table", PyVal.str "users")], "warning", true, [], []⟩
    [("op", PyVal.str "read")] ["Check the schema"] (by decide)

lemma foldl_add_suggestion (l : List String) (e : SplurgeError) :
    l.foldl SplurgeError.add_suggestion e
      = { e with suggestions := e.suggestions ++ l } := by
  induction l generalizing e with
  | nil => simp
  | cons s t ih =>
    rw [List.foldl_cons, ih]
    simp [SplurgeError.add_suggestion]

lemma wrap_exception_eq (exc : PyExc) (target : SplurgeClass)
    (error_code : String) (message : Option String) (context : Option Dict)
    (suggestions : Option (List String)) (details : Option Dict)
    (h1 : validate_error_code error_code = Except.ok ())
    (h2 : validate_domain target.domain = Except.ok ()) :
    wrap_exception exc target error_code message context suggestions details
      = Except.ok (PyExc.splurge target.name
          ⟨target.domain, error_code, some (message.getD exc.toStr),
            details.getD [], "error", false,
            if dictTruthy context then dictUpdate [] (context.getD [])
            else [],
            suggestions.getD []⟩
          (some exc)) := by
  have hinit := splurgeInit_eq_ok target.domain error_code
    (some (message.getD exc.toStr)) details "error" false h1 h2 (by decide)
  unfold wrap_exception
  simp only [hinit, except_ok_bind]
  by_cases hc : dictTruthy context
  · rw [if_pos hc, if_pos hc]
    unfold SplurgeError.attach_context
    rw [if_pos hc]
    simp only [except_ok_bind]
    by_cases hsg : listTruthy suggestions
    · rw [if_pos hsg, foldl_add_suggestion]
      rfl
    · rw [if_neg hsg]
      cases suggestions with
      | none => rfl
      | some l =>
        cases l with
        | nil => rfl
        | cons s t => simp [listTruthy] at hsg
  · rw [if_neg hc, if_neg hc]
    by_cases hsg : listTruthy suggestions
    · rw [if_pos hsg, foldl_add_suggestion]
      rfl
    · rw [if_neg hsg]
      cases suggestions with
      | none => rfl
      | some l =>
        cases l with
        | nil => rfl
        | cons s t => simp [listTruthy] at hsg

/-- C8: wrap_exception yields an instance of the target type (its class
name and domain), with the given error code, with the original
exception as the cause, with str of the original as the message when
none is given, with the provided context entries merged into the fresh
context, and with the provided suggestions appended in order. -/
theorem c8_wrap_exception_behavior (exc : PyExc) (target : SplurgeClass)
    (error_code : String) (context : Option Dict)
    (suggestions : Option (List String)) (details : Option Dict)
    (h1 : validate_error_code error_code = Except.ok ())
    (h2 : validate_domain target.domain = Except.ok ()) :
    wrap_exception exc target error_code Option.none context suggestions
        details
      = Except.ok (PyExc.splurge target.name
          ⟨target.domain, error_code, some exc.toStr, details.getD [],
            "error", false,
            if dictTruthy context then dictUpdate [] (context.getD [])
            else [],
            suggestions.getD []⟩
          (some exc)) := by
  exact wrap_exception_eq exc target error_code Option.none context
    suggestions details h1 h2

/-- C8 witness: wrapping a FileNotFoundError into SplurgeOSError with
error code "file-not-found", a context entry and a suggestion. -/
theorem c8_wrap_exception_behavior_witness :
    validate_error_code "file-not-found" = Except.ok ()
    ∧ validate_domain "os" = Except.ok ()
    ∧ wrap_exception (PyExc.foreign "FileNotFoundError" true "x")
        ⟨"SplurgeOSError", "os"⟩ "file-not-found" Option.none
        (some [("path", PyVal.str "/data/x")]) (some ["Check file path"])
        Option.none
      = Except.ok (PyExc.splurge "SplurgeOSError"
          ⟨"os", "file-not-found", some "x", [], "error", false,
            [("path", PyVal.str "/data/x")], ["Check file path"]⟩
          (some (PyExc.foreign "FileNotFoundError" true "x"))) := by
  refine ⟨by decide, by decide, ?_⟩
  have h := c8_wrap_exception_behavior
    (PyExc.foreign "FileNotFoundError" true "x") ⟨"SplurgeOSError", "os"⟩
    "file-not-found" (some [("path", PyVal.str "/data/x")])
    (some ["Check file path"]) Option.none (by decide) (by decide)
  rw [h]
  rfl

lemma errorContextCaught_mapped_nocb (m : ExcMap) (ctx : Option Dict)
    (suppress : Bool)
    (e : PyExc) (target : SplurgeClass) (code : String)
    (hE : e.isException = true)
    (hl : lookupExc (some m) e.typeName = some (target, code))
    (h1 : validate_error_code code = Except.ok ())
    (h2 : validate_domain target.domain = Except.ok ()) :
    errorContextCaught (some m) ctx Option.none suppress (e : PyExc)
      = if suppress then Outcome.ok ()
        else Outcome.exc (applyHandlerContext
          (PyExc.splurge target.name
            ⟨target.domain, code, some e.toStr, [], "error", false, [], []⟩
            (some e)) ctx) := by
  unfold errorContextCaught
  rw [hE]
  simp only [Bool.not_true, Bool.false_eq_true, if_false]
  rw [hl]
  simp only [wrap_exception_eq e target code Option.none Option.none
    Option.none Option.none h1 h2, Option.getD_none, dictTruthy]
  cases suppress <;> simp

lemma errorContextCaught_mapped_cb (m : ExcMap) (ctx : Option Dict)
    (f : PyExc → Option PyExc) (suppress : Bool)
    (e : PyExc) (target : SplurgeClass) (code : String)
    (hE : e.isException = true)
    (hl : lookupExc (some m) e.typeName = some (target, code))
    (h1 : validate_error_code code = Except.ok ())
    (h2 : validate_domain target.domain = Except.ok ()) :
    errorContextCaught (some m) ctx (some f) suppress (e : PyExc)
      = match f (applyHandlerContext
          (PyExc.splurge target.name
            ⟨target.domain, code, some e.toStr, [], "error", false, [], []⟩
            (some e)) ctx) with
        | some ce =>
          if !ce.isException then Outcome.exc ce
          else if suppress then Outcome.ok ()
          else Outcome.exc (applyHandlerContext
            (PyExc.splurge target.name
              ⟨target.domain, code, some e.toStr, [], "error", false,
                [], []⟩
              (some e)) ctx)
        | Option.none =>
          if suppress then Outcome.ok ()
          else Outcome.exc (applyHandlerContext
            (PyExc.splurge target.name
              ⟨target.domain, code, some e.toStr, [], "error", false,
                [], []⟩
              (some e)) ctx) := by
  unfold errorContextCaught
  rw [hE]
  simp only [Bool.not_true, Bool.false_eq_true, if_false]
  rw [hl]
  simp only [wrap_exception_eq e target code Option.none Option.none
    Option.none Option.none h1 h2, Option.getD_none, dictTruthy]
  cases hf : f (applyHandlerContext (PyExc.splurge target.name
      ⟨target.domain, code, some e.toStr, [], "error", false, [], []⟩
      (some e)) ctx) with
  | none => cases suppress <;> simp [hf]
  | some ce =>
    cases hce : ce.isException with
    | false => simp [hf, hce]
    | true => cases suppress <;> simp [hf, hce]

lemma errorContextCaught_unmapped_nocb (m : Option ExcMap)
    (ctx : Option Dict) (suppress : Bool) (e : PyExc)
    (hE : e.isException = true)
    (hl : lookupExc m e.typeName = Option.none) :
    errorContextCaught m ctx Option.none suppress e
      = if suppress then Outcome.ok () else Outcome.exc e := by
  unfold errorContextCaught
  rw [hE]
  simp only [Bool.not_true, Bool.false_eq_true, if_false]
  rw [hl]
  cases suppress <;> simp

/-- C9: a BaseException that is not an Exception always propagates out
of error_context immediately and unchanged, whatever the mapping, the
handler context, the callbacks and the suppress flag. -/
theorem c9_base_exception_propagates (exceptions : Option ExcMap)
    (context : Option Dict) (on_success : Option (Option PyExc))
    (on_error : Option (PyExc → Option PyExc)) (suppress : Bool)
    (e : PyExc) (h : e.isException = false) :
    error_context exceptions context on_success on_error suppress
        (Outcome.exc e)
      = Outcome.exc e := by
  show errorContextCaught exceptions context on_error suppress e
    = Outcome.exc e
  unfold errorContextCaught
  rw [h]
  simp

/-- C9 witness: a KeyboardInterrupt propagates unchanged even with
suppress true, its type in the mapping, and an on_error callback. -/
theorem c9_base_exception_propagates_witness :
    (PyExc.foreign "KeyboardInterrupt" false "stop").isException = false
    ∧ error_context
        (some [("KeyboardInterrupt",
          (⟨"SplurgeRuntimeError", "runtime"⟩, "operation-failed"))])
        (some [("k", PyVal.str "v")]) Option.none
        (some (fun _ => Option.none)) true
        (Outcome.exc (PyExc.foreign "KeyboardInterrupt" false "stop"))
      = Outcome.exc (PyExc.foreign "KeyboardInterrupt" false "stop") := by
  refine ⟨rfl, ?_⟩
  exact c9_base_exception_propagates
    (some [("KeyboardInterrupt",
      (⟨"SplurgeRuntimeError", "runtime"⟩, "operation-failed"))])
    (some [("k", PyVal.str "v")]) Option.none
    (some (fun _ => Option.none)) true
    (PyExc.foreign "KeyboardInterrupt" false "stop") rfl

/-- C2 counterexample: a mapped ValueError with an on_error callback
that raises a RuntimeError, suppress false: what propagates out of
error_context is the wrapped SplurgeValueError, not the callback's own
RuntimeError as the claim asserts. -/
theorem c2_callback_counterexample :
    (error_context
        (some [("ValueError",
          (⟨"SplurgeValueError", "value"⟩, "invalid-value"))])
        Option.none Option.none
        (some (fun _ => some (PyExc.foreign "RuntimeError" true
          "Callback error")))
        false
        (Outcome.exc (PyExc.foreign "ValueError" true "Original"))).excName
      = some "SplurgeValueError"
    ∧ (some "SplurgeValueError" : Option String) ≠ some "RuntimeError" := by
  refine ⟨rfl, by decide⟩

/-- C2 amended: in error_context, for a mapped exception with an
on_error callback: if the callback raises a non-Exception BaseException
(such as KeyboardInterrupt), that exception escapes the except-Exception
clause and propagates even when suppress is true; otherwise — the
callback raising an ordinary Exception, or returning normally — the
wrapped error (with the handler context attached) propagates unless
suppress is true, in which case nothing propagates; an ordinary
Exception raised by the callback is discarded in the mapped case (it
propagates only in the unmapped case). -/
theorem c2_mapped_callback_wrapped_propagates (m : ExcMap)
    (ctx : Option Dict) (f : PyExc → Option PyExc) (suppress : Bool)
    (e : PyExc) (target : SplurgeClass) (code : String)
    (hE : e.isException = true)
    (hl : lookupExc (some m) e.typeName = some (target, code))
    (h1 : validate_error_code code = Except.ok ())
    (h2 : validate_domain target.domain = Except.ok ()) :
    (∀ ce, f (applyHandlerContext
        (PyExc.splurge target.name
          ⟨target.domain, code, some e.toStr, [], "error", false, [], []⟩
          (some e)) ctx) = some ce → ce.isException = false →
      error_context (some m) ctx Option.none (some f) suppress
          (Outcome.exc e)
        = Outcome.exc ce)
    ∧ (∀ ce, f (applyHandlerContext
        (PyExc.splurge target.name
          ⟨target.domain, code, some e.toStr, [], "error", false, [], []⟩
          (some e)) ctx) = some ce → ce.isException = true →
      error_context (some m) ctx Option.none (some f) suppress
          (Outcome.exc e)
        = if suppress then Outcome.ok ()
          else Outcome.exc (applyHandlerContext
            (PyExc.splurge target.name
              ⟨target.domain, code, some e.toStr, [], "error", false,
                [], []⟩
              (some e)) ctx))
    ∧ (f (applyHandlerContext
        (PyExc.splurge target.name
          ⟨target.domain, code, some e.toStr, [], "error", false, [], []⟩
          (some e)) ctx) = Option.none →
      error_context (some m) ctx Option.none (some f) suppress
          (Outcome.exc e)
        = if suppress then Outcome.ok ()
          else Outcome.exc (applyHandlerContext
            (PyExc.splurge target.name
              ⟨target.domain, code, some e.toStr, [], "error", false,
                [], []⟩
              (some e)) ctx)) := by
  have hcb := errorContextCaught_mapped_cb m ctx f suppress e target code
    hE hl h1 h2
  refine ⟨?_, ?_, ?_⟩
  · intro ce hce hne
    show errorContextCaught (some m) ctx (some f) suppress e = _
    rw [hcb, hce]
    simp [hne]
  · intro ce hce hexc
    show errorContextCaught (some m) ctx (some f) suppress e = _
    rw [hcb, hce]
    simp [hexc]
  · intro hnone
    show errorContextCaught (some m) ctx (some f) suppress e = _
    rw [hcb, hnone]

/-- C2 witness: the amended theorem applied at concrete inputs: a
callback raising an ordinary RuntimeError with suppress false (the
wrapped error propagates), and a callback raising KeyboardInterrupt
with suppress true (the KeyboardInterrupt propagates anyway). -/
theorem c2_mapped_callback_wrapped_propagates_witness :
    (PyExc.foreign "ValueError" true "Original").isException = true
    ∧ lookupExc (some [("ValueError",
        (⟨"SplurgeValueError", "value"⟩, "invalid-value"))])
        (PyExc.foreign "ValueError" true "Original").typeName
      = some (⟨"SplurgeValueError", "value"⟩, "invalid-value")
    ∧ error_context
        (some [("ValueError",
          (⟨"SplurgeValueError", "value"⟩, "invalid-value"))])
        Option.none Option.none
        (some (fun _ => some (PyExc.foreign "RuntimeError" true
          "Callback error")))
        false
        (Outcome.exc (PyExc.foreign "ValueError" true "Original"))
      = Outcome.exc (applyHandlerContext
          (PyExc.splurge "SplurgeValueError"
            ⟨"value", "invalid-value", some "Original", [], "error",
              false, [], []⟩
            (some (PyExc.foreign "ValueError" true "Original")))
          Option.none)
    ∧ error_context
        (some [("ValueError",
          (⟨"SplurgeValueError", "value"⟩, "invalid-value"))])
        Option.none Option.none
        (some (fun _ => some (PyExc.foreign "KeyboardInterrupt" false
          "stop")))
        true
        (Outcome.exc (PyExc.foreign "ValueError" true "Original"))
      = Outcome.exc (PyExc.foreign "KeyboardInterrupt" false "stop") := by
  refine ⟨rfl, by decide, ?_, ?_⟩
  · exact (c2_mapped_callback_wrapped_propagates
      [("ValueError", (⟨"SplurgeValueError", "value"⟩, "invalid-value"))]
      Option.none
      (fun _ => some (PyExc.foreign "RuntimeError" true "Callback error"))
      false (PyExc.foreign "ValueError" true "Original")
      ⟨"SplurgeValueError", "value"⟩ "invalid-value" rfl (by decide)
      (by decide) (by decide)).2.1
      (PyExc.foreign "RuntimeError" true "Callback error") rfl rfl
  · exact (c2_mapped_callback_wrapped_propagates
      [("ValueError", (⟨"SplurgeValueError", "value"⟩, "invalid-value"))]
      Option.none
      (fun _ => some (PyExc.foreign "KeyboardInterrupt" false "stop"))
      true (PyExc.foreign "ValueError" true "Original")
      ⟨"SplurgeValueError", "value"⟩ "invalid-value" rfl (by decide)
      (by decide) (by decide)).1
      (PyExc.foreign "KeyboardInterrupt" false "stop") rfl rfl

/-- C5: under handle_exceptions, an exception whose exact type is not a
key of the mapping propagates unchanged (so any subclass of a mapped
type, having a different exact type that is not itself a key, is not
caught); an exception whose exact type is mapped is converted to the
mapped target type with the mapped error code and the original as
cause, and is re-raised when reraise is true or swallowed with a None
result when reraise is false. -/
theorem c5_handle_exceptions_behavior (α : Type) (exceptions : ExcMap)
    (reraise : Bool) (e : PyExc) :
    (lookupExc (some exceptions) e.typeName = Option.none →
      handle_exceptions exceptions reraise (Outcome.exc e : Outcome α)
        = Outcome.exc e)
    ∧ (∀ target code,
        lookupExc (some exceptions) e.typeName = some (target, code) →
        validate_error_code code = Except.ok () →
        validate_domain target.domain = Except.ok () →
        handle_exceptions exceptions reraise (Outcome.exc e : Outcome α)
          = if reraise then
              Outcome.exc (PyExc.splurge target.name
                ⟨target.domain, code, some e.toStr, [], "error", false,
                  [], []⟩
                (some e))
            else Outcome.ok Option.none) := by
  have heq : handle_exceptions exceptions reraise (Outcome.exc e : Outcome α)
      = match lookupExc (some exceptions) e.typeName with
        | Option.none => Outcome.exc e
        | some (target, error_code) =>
          match wrap_exception e target error_code Option.none Option.none
              Option.none Option.none with
          | Except.error pe => Outcome.exc (pyErrToExc pe)
          | Except.ok wrapped =>
            if reraise then Outcome.exc wrapped
            else Outcome.ok Option.none := rfl
  constructor
  · intro hl
    rw [heq, hl]
  · intro target code hl h1 h2
    rw [heq, hl]
    simp only [wrap_exception_eq e target code Option.none Option.none
      Option.none Option.none h1 h2]
    rfl

/-- C5 witness: an unmapped KeyError propagates unchanged, and a mapped
ValueError is converted to SplurgeValueError with error code
"invalid-value" and the original as cause, re-raised since reraise is
true. -/
theorem c5_handle_exceptions_behavior_witness :
    lookupExc (some [("ValueError",
        (⟨"SplurgeValueError", "value"⟩, "invalid-value"))])
        (PyExc.foreign "KeyError" true "missing").typeName
      = Option.none
    ∧ handle_exceptions
        [("ValueError", (⟨"SplurgeValueError", "value"⟩, "invalid-value"))]
        true (Outcome.exc (PyExc.foreign "KeyError" true "missing")
          : Outcome Unit)
      = Outcome.exc (PyExc.foreign "KeyError" true "missing")
    ∧ handle_exceptions
        [("ValueError", (⟨"SplurgeValueError", "value"⟩, "invalid-value"))]
        true (Outcome.exc (PyExc.foreign "ValueError" true "bad")
          : Outcome Unit)
      = if true then
          Outcome.exc (PyExc.splurge "SplurgeValueError"
            ⟨"value", "invalid-value",
              some (PyExc.foreign "ValueError" true "bad").toStr, [],
              "error", false, [], []⟩
            (some (PyExc.foreign "ValueError" true "bad")))
        else Outcome.ok Option.none := by
  refine ⟨by decide, ?_, ?_⟩
  · exact (c5_handle_exceptions_behavior Unit
      [("ValueError", (⟨"SplurgeValueError", "value"⟩, "invalid-value"))]
      true (PyExc.foreign "KeyError" true "missing")).1 (by decide)
  · exact (c5_handle_exceptions_behavior Unit
      [("ValueError", (⟨"SplurgeValueError", "value"⟩, "invalid-value"))]
      true (PyExc.foreign "ValueError" true "bad")).2
      ⟨"SplurgeValueError", "value"⟩ "invalid-value" (by decide)
      (by decide) (by decide)

/-- C6 counterexample: both nested handlers map the Splurge type MyErr
to itself; raising a MyErr inside the innermost block makes the inner
handler wrap it with context k=inner, but the outer handler then maps
the wrapped MyErr again (its exact type is a key of the outer mapping)
and re-wraps it with context k=outer, so the final error's context at
"k" is "outer", not "inner" as the claim asserts. -/
theorem c6_nested_context_counterexample :
    (error_context (some [("MyErr", (⟨"MyErr", "app"⟩, "code"))])
        (some [("k", PyVal.str "outer")]) Option.none Option.none false
        (error_context (some [("MyErr", (⟨"MyErr", "app"⟩, "code"))])
          (some [("k", PyVal.str "inner")]) Option.none Option.none false
          (Outcome.exc (PyExc.splurge "MyErr"
            ⟨"app", "code", Option.none, [], "error", false, [], []⟩
            Option.none)))).excContextAt "k"
      = some (PyVal.str "outer")
    ∧ (some (PyVal.str "outer") : Option PyVal)
        ≠ some (PyVal.str "inner") := by
  refine ⟨rfl, by decide⟩

/-- C6 amended: for two nested error_context handlers that both map the
same exception type, provided the inner mapping's target type is not
itself a key of the outer handler's mapping (the usual case of a
foreign source type mapped to a Splurge target), raising that
exception in the innermost block propagates the inner-wrapped error
with its context value "inner" at the shared key unchanged through the
outer handler, so the final error's get_context of "k" is "inner". -/
theorem c6_nested_inner_context_wins (T : String) (target : SplurgeClass)
    (code : String) (outerM : ExcMap) (e : PyExc)
    (hE : e.isException = true) (hT : e.typeName = T)
    (h1 : validate_error_code code = Except.ok ())
    (h2 : validate_domain target.domain = Except.ok ())
    (houter : lookupExc (some outerM) target.name = Option.none) :
    error_context (some outerM) (some [("k", PyVal.str "outer")])
        Option.none Option.none false
        (error_context (some [(T, (target, code))])
          (some [("k", PyVal.str "inner")]) Option.none Option.none false
          (Outcome.exc e))
      = Outcome.exc (PyExc.splurge target.name
          ⟨target.domain, code, some e.toStr, [], "error", false,
            [("k", PyVal.str "inner")], []⟩
          (some e))
    ∧ (⟨target.domain, code, some e.toStr, [], "error", false,
          [("k", PyVal.str "inner")], []⟩ : SplurgeError).get_context "k"
          PyVal.none
        = PyVal.str "inner" := by
  have hl : lookupExc (some [(T, (target, code))]) e.typeName
      = some (target, code) := by
    rw [hT]
    simp [lookupExc, List.lookup]
  have hinner : error_context (some [(T, (target, code))])
      (some [("k", PyVal.str "inner")]) Option.none Option.none false
      (Outcome.exc e)
      = Outcome.exc (PyExc.splurge target.name
          ⟨target.domain, code, some e.toStr, [], "error", false,
            [("k", PyVal.str "inner")], []⟩
          (some e)) := by
    show errorContextCaught (some [(T, (target, code))])
        (some [("k", PyVal.str "inner")]) Option.none false e = _
    rw [errorContextCaught_mapped_nocb [(T, (target, code))]
      (some [("k", PyVal.str "inner")]) false e target code
      hE hl h1 h2]
    rfl
  constructor
  · rw [hinner]
    show errorContextCaught (some outerM) (some [("k", PyVal.str "outer")])
        Option.none false (PyExc.splurge target.name
          ⟨target.domain, code, some e.toStr, [], "error", false,
            [("k", PyVal.str "inner")], []⟩
          (some e)) = _
    rw [errorContextCaught_unmapped_nocb (some outerM)
      (some [("k", PyVal.str "outer")]) false
      (PyExc.splurge target.name
        ⟨target.domain, code, some e.toStr, [], "error", false,
          [("k", PyVal.str "inner")], []⟩
        (some e)) rfl houter]
    rfl
  · rfl

/-- C6 witness: the amended theorem at both handlers mapping ValueError,
the inner to SplurgeValueError, which the outer does not map, so the
final error carries context k=inner. -/
theorem c6_nested_inner_context_wins_witness :
    (PyExc.foreign "ValueError" true "boom").isException = true
    ∧ lookupExc (some [("ValueError",
        (⟨"SplurgeValueError", "value"⟩, "invalid-value"))])
        "SplurgeValueError"
      = Option.none
    ∧ error_context
        (some [("ValueError",
          (⟨"SplurgeValueError", "value"⟩, "invalid-value"))])
        (some [("k", PyVal.str "outer")]) Option.none Option.none false
        (error_context
          (some [("ValueError",
            (⟨"SplurgeValueError", "value"⟩, "invalid-value"))])
          (some [("k", PyVal.str "inner")]) Option.none Option.none false
          (Outcome.exc (PyExc.foreign "ValueError" true "boom")))
      = Outcome.exc (PyExc.splurge "SplurgeValueError"
          ⟨"value", "invalid-value",
            some (PyExc.foreign "ValueError" true "boom").toStr, [],
            "error", false, [("k", PyVal.str "inner")], []⟩
          (some (PyExc.foreign "ValueError" true "boom"))) := by
  refine ⟨rfl, by decide, ?_⟩
  exact (c6_nested_inner_context_wins "ValueError"
    ⟨"SplurgeValueError", "value"⟩ "invalid-value"
    [("ValueError", (⟨"SplurgeValueError", "value"⟩, "invalid-value"))]
    (PyExc.foreign "ValueError" true "boom") rfl rfl (by decide)
    (by decide) (by decide)).1
